import Mathlib

/-!
Shallow embedding of the 2025 tax calculator repository
(src/General-use-2025.py and src/Federal-2025.py).

Money and rates are modelled as exact rationals (`ℚ`); the Python sources
carry unrounded fractional values and round only at display time, so the
rational semantics is the intended arithmetic. Jurisdiction codes and
filing statuses are strings, as in the source; Python's `str.lower()` /
`str.upper()` (applied here only to ASCII data) are embedded as
character-wise maps over the string's characters. Python exceptions
(`ValueError` for invalid filing status and unsupported state, and the
`TypeError`s that dict/list indexing would raise on the exotic keys of the
state table) are embedded as an `Except` error type. Display-only strings
(bracket range labels, rate strings, descriptions) are not modelled; a
breakdown entry instead records the bracket's numeric bounds and rate
together with the income and tax attributed to it, which is the same
information the formatted label carries.
-/

/-- One tax bracket `(lower, upper, rate)`; `upper = none` embeds Python's
`float('inf')` upper bound on the last bracket. -/
structure TaxBracket where
  lower : ℚ
  upper : Option ℚ
  rate : ℚ
deriving DecidableEq

/-- One entry of the bracket breakdown produced by `calculate_bracket_tax`:
the bracket it reports (bounds and rate) plus the income falling in that
bracket and the tax charged on it. -/
structure BEntry where
  lower : ℚ
  upper : Option ℚ
  rate : ℚ
  income : ℚ
  tax : ℚ
deriving DecidableEq

/-- `min(taxable_income, upper)` where `upper` may be `float('inf')`. -/
def minUpper (x : ℚ) : Option ℚ → ℚ
  | none => x
  | some u => min x u

/-- `taxable_income <= upper` where `upper` may be `float('inf')`. -/
def leUpper (x : ℚ) : Option ℚ → Bool
  | none => true
  | some u => decide (x ≤ u)

/-- Embedding of `calculate_bracket_tax(taxable_income, brackets)` from
src/General-use-2025.py lines 112-148 (the identical inline loop of
src/Federal-2025.py lines 62-81 is the same algorithm): iterate brackets in
order; whenever `taxable_income > lower` charge
`(min(taxable_income, upper) - lower) * rate` and record a breakdown entry;
stop at the first such bracket with `taxable_income <= upper`. Returns
`(total, breakdown)`. -/
def calculate_bracket_tax (taxable_income : ℚ) : List TaxBracket → ℚ × List BEntry
  | [] => (0, [])
  | b :: rest =>
    if taxable_income > b.lower then
      let income_in_bracket := minUpper taxable_income b.upper - b.lower
      let tax_in_bracket := income_in_bracket * b.rate
      let entry : BEntry := ⟨b.lower, b.upper, b.rate, income_in_bracket, tax_in_bracket⟩
      if leUpper taxable_income b.upper then
        (tax_in_bracket, [entry])
      else
        let r := calculate_bracket_tax taxable_income rest
        (tax_in_bracket + r.1, entry :: r.2)
    else
      calculate_bracket_tax taxable_income rest

/-- Well-formedness of a bracket chain starting at lower bound `p`:
lower bounds are contiguous (`upper` of one bracket is `lower` of the
next), each bounded bracket is non-degenerate (`lower < upper`), rates lie
in `[0,1)`, and exactly the last bracket is unbounded. -/
def chainWF (p : ℚ) : List TaxBracket → Bool
  | [] => false
  | b :: rest =>
    match b.upper with
    | none =>
      decide (b.lower = p) && decide (0 ≤ b.rate) && decide (b.rate < 1) && rest.isEmpty
    | some u =>
      decide (b.lower = p) && decide (b.lower < u) && decide (0 ≤ b.rate) &&
        decide (b.rate < 1) && chainWF u rest

/-- A well-formed bracket table: strictly increasing contiguous bounds
partitioning `[0, ∞)` (first lower bound `0`, last bracket unbounded), with
rates in `[0,1)`. -/
def isWF (brackets : List TaxBracket) : Bool := chainWF 0 brackets

/-- Closed form of the progressive bracket tax: each bracket contributes
`rate * max 0 (min(I, upper) - lower)`. Used to relate the iterative
calculator to a sum of per-bracket monotone terms. -/
def bracketTaxSum (taxable_income : ℚ) (brackets : List TaxBracket) : ℚ :=
  (brackets.map (fun b => b.rate * max 0 (minUpper taxable_income b.upper - b.lower))).sum

/-- Federal single-filer brackets, `TAX_DATA["federal"]["single"]["brackets"]`. -/
def fed_single_brackets : List TaxBracket :=
  [⟨0, some 11925, 0.10⟩, ⟨11925, some 48475, 0.12⟩, ⟨48475, some 103350, 0.22⟩,
   ⟨103350, some 197300, 0.24⟩, ⟨197300, some 250525, 0.32⟩, ⟨250525, none, 0.35⟩]

/-- Federal joint-filer brackets, `TAX_DATA["federal"]["joint"]["brackets"]`. -/
def fed_joint_brackets : List TaxBracket :=
  [⟨0, some 23850, 0.10⟩, ⟨23850, some 96950, 0.12⟩, ⟨96950, some 206700, 0.22⟩,
   ⟨206700, some 394600, 0.24⟩, ⟨394600, some 501050, 0.32⟩, ⟨501050, none, 0.35⟩]

/-- Social Security wage base limit, `ss_cap` / `SS_CAP` in both sources. -/
def SS_CAP : ℚ := 176100

/-- Social Security rate, `ss_rate` / `SS_RATE` in both sources. -/
def SS_RATE : ℚ := 0.062

/-- Medicare rate, `medicare_rate` / `MC_RATE` in both sources. -/
def MC_RATE : ℚ := 0.0145

/-- Errors the embedded engine can surface: the two `ValueError`s raised by
the sources (invalid filing status; unsupported state code) and the
`TypeError` Python would raise when dict/list indexing hits a non-profile
value (the `"no_tax_states"` key of the state table, or a bracket state's
`"type"`/`"name"`/`"description"` keys used as a filing status). -/
inductive TaxError where
  | invalidFilingStatus
  | unsupportedJurisdiction
  | typeErr
deriving DecidableEq

/-- Result of `calculate_federal_tax` in src/General-use-2025.py: the fields
of the returned dictionary (per-earner payroll components are always
computed by the source; the dictionary exposes them for joint filers). -/
structure FederalResult where
  filing_status : String
  gross_income : ℚ
  standard_deduction : ℚ
  taxable_income : ℚ
  income_tax : ℚ
  bracket_breakdown : List BEntry
  ss_tax1 : ℚ
  ss_tax2 : ℚ
  ss_tax_total : ℚ
  mc_tax1 : ℚ
  mc_tax2 : ℚ
  mc_tax_total : ℚ
  payroll_tax : ℚ
  total_tax : ℚ
  effective_rate : ℚ
deriving DecidableEq

/-- Embedding of `calculate_federal_tax(income1, income2, filing_status)`
from src/General-use-2025.py lines 161-249: validate the filing status,
sum both incomes (unconditionally), subtract the standard deduction
(floored at 0), apply the federal brackets, and add payroll taxes
(Social Security capped per earner, Medicare uncapped). -/
def calculate_federal_tax (income1 income2 : ℚ) (filing_status : String) :
    Except TaxError FederalResult :=
  if filing_status = "single" ∨ filing_status = "joint" then
    let standard_deduction : ℚ := if filing_status = "joint" then 30000 else 15000
    let brackets := if filing_status = "joint" then fed_joint_brackets else fed_single_brackets
    let total_income := income1 + income2
    let taxable_income := max 0 (total_income - standard_deduction)
    let r := calculate_bracket_tax taxable_income brackets
    let ss_tax1 := min income1 SS_CAP * SS_RATE
    let ss_tax2 := min income2 SS_CAP * SS_RATE
    let ss_tax_total := ss_tax1 + ss_tax2
    let medicare_tax1 := income1 * MC_RATE
    let medicare_tax2 := income2 * MC_RATE
    let medicare_tax_total := medicare_tax1 + medicare_tax2
    let payroll_tax := ss_tax_total + medicare_tax_total
    let total_federal_tax := r.1 + payroll_tax
    let effective_rate := if total_income > 0 then total_federal_tax / total_income * 100 else 0
    .ok ⟨filing_status, total_income, standard_deduction, taxable_income, r.1, r.2,
      ss_tax1, ss_tax2, ss_tax_total, medicare_tax1, medicare_tax2, medicare_tax_total,
      payroll_tax, total_federal_tax, effective_rate⟩
  else
    .error .invalidFilingStatus

/-- Result of `calculate_taxes` in src/Federal-2025.py: the fields of the
returned dictionary (spouse components are always computed by the source;
`income2` is the possibly-zeroed secondary income actually used). -/
structure FedResult where
  filing_status : String
  gross_income : ℚ
  standard_deduction : ℚ
  taxable_income : ℚ
  income_tax : ℚ
  ss_total : ℚ
  mc_total : ℚ
  total_tax : ℚ
  take_home_pay : ℚ
  effective_tax_rate : ℚ
  bracket_breakdown : List BEntry
  income1 : ℚ
  income2 : ℚ
  ss_tax1 : ℚ
  ss_tax2 : ℚ
  mc_tax1 : ℚ
  mc_tax2 : ℚ
deriving DecidableEq

/-- Embedding of `calculate_taxes(income1, income2, filing_status)` from
src/Federal-2025.py lines 1-130: validate the filing status; for `"single"`
force `income2 = 0` and use only `income1`; subtract the standard deduction
(floored at 0); run the same bracket loop; Social Security is capped per
person and the second earner's payroll taxes are charged only when the
(possibly zeroed) `income2 > 0`. -/
def calculate_taxes (income1 income2 : ℚ) (filing_status : String) :
    Except TaxError FedResult :=
  if filing_status = "single" ∨ filing_status = "joint" then
    let standard_deduction : ℚ := if filing_status = "joint" then 30000 else 15000
    let brackets := if filing_status = "joint" then fed_joint_brackets else fed_single_brackets
    let inc2 : ℚ := if filing_status = "single" then 0 else income2
    let total_income := if filing_status = "single" then income1 else income1 + income2
    let taxable_income := max 0 (total_income - standard_deduction)
    let r := calculate_bracket_tax taxable_income brackets
    let ss_tax1 := min income1 SS_CAP * SS_RATE
    let ss_tax2 := if inc2 > 0 then min inc2 SS_CAP * SS_RATE else 0
    let total_ss_tax := ss_tax1 + ss_tax2
    let mc_tax1 := income1 * MC_RATE
    let mc_tax2 := if inc2 > 0 then inc2 * MC_RATE else 0
    let total_mc_tax := mc_tax1 + mc_tax2
    let total_tax := r.1 + total_ss_tax + total_mc_tax
    let effective_rate := if total_income > 0 then total_tax / total_income else 0
    .ok ⟨filing_status, total_income, standard_deduction, taxable_income, r.1,
      total_ss_tax, total_mc_tax, total_tax, total_income - total_tax,
      effective_rate * 100, r.2, income1, inc2, ss_tax1, ss_tax2, mc_tax1, mc_tax2⟩
  else
    .error .invalidFilingStatus

/-- Embedding of Python's `str.lower()` (character-wise; the repository's
jurisdiction data is ASCII, where the two agree). -/
def lowerStr (s : String) : String := ⟨s.data.map Char.toLower⟩

/-- Embedding of Python's `str.upper()` (character-wise; used only for the
echoed no-tax state label). -/
def upperStr (s : String) : String := ⟨s.data.map Char.toUpper⟩

/-- `TAX_DATA["states"]["no_tax_states"]`. -/
def no_tax_states : List String :=
  ["texas", "florida", "washington", "nevada", "alaska",
   "wyoming", "south_dakota", "tennessee", "new_hampshire"]

/-- A per-filing-status profile of a bracket state: standard deduction and
bracket table. -/
structure Profile where
  standard_deduction : ℚ
  brackets : List TaxBracket
deriving DecidableEq

/-- A value of the `TAX_DATA["states"]` dictionary: the `"no_tax_states"`
key holds a list (not a state record); the other keys hold flat, composite
or bracket state records. Optional fields embed keys that may be absent
(`flat_fee`, a `"joint"` profile). -/
inductive StateEntry where
  | noTaxList
  | flatState (nm : String) (rate : ℚ) (flat_fee : Option ℚ)
  | compositeState (nm : String) (state_rate local_rate total_rate : ℚ) (flat_fee : Option ℚ)
  | bracketState (nm : String) (single_profile : Profile) (joint_profile : Option Profile)
deriving DecidableEq

/-- Minnesota single-filer profile from `TAX_DATA["states"]["minnesota"]`. -/
def mn_single : Profile :=
  ⟨14950, [⟨0, some 32570, 0.0535⟩, ⟨32570, some 106990, 0.068⟩,
           ⟨106990, some 198630, 0.0785⟩, ⟨198630, none, 0.0985⟩]⟩

/-- Minnesota joint-filer profile from `TAX_DATA["states"]["minnesota"]`. -/
def mn_joint : Profile :=
  ⟨29900, [⟨0, some 47620, 0.0535⟩, ⟨47620, some 189180, 0.068⟩,
           ⟨189180, some 330410, 0.0785⟩, ⟨330410, none, 0.0985⟩]⟩

/-- The `TAX_DATA["states"]` dictionary as an association list (insertion
order of the source). -/
def statesTable : List (String × StateEntry) :=
  [("no_tax_states", .noTaxList),
   ("michigan", .flatState "Michigan" 0.0425 none),
   ("pennsylvania", .flatState "Pennsylvania" 0.0307 none),
   ("pennsylvania-philadelphia",
     .compositeState "Pennsylvania - Philadelphia" 0.0307 0.0375 0.0682 none),
   ("pennsylvania-pittsburgh",
     .compositeState "Pennsylvania - Pittsburgh" 0.0307 0.03 0.0607 (some 52)),
   ("minnesota", .bracketState "Minnesota" mn_single (some mn_joint))]

/-- Flat-state result dictionary of `calculate_state_tax` (rates are stored
multiplied by 100, as the source does for display). -/
structure FlatRes where
  nm : String
  rate : ℚ
  tax : ℚ
  flat_fee : ℚ
  effective_rate : ℚ
deriving DecidableEq

/-- Composite-state result dictionary of `calculate_state_tax`. -/
structure CompRes where
  nm : String
  state_rate : ℚ
  local_rate : ℚ
  state_portion : ℚ
  local_portion : ℚ
  total_rate : ℚ
  tax : ℚ
  flat_fee : ℚ
  effective_rate : ℚ
deriving DecidableEq

/-- TaxBracket-state result dictionary of `calculate_state_tax`. -/
structure BracketRes where
  nm : String
  standard_deduction : ℚ
  taxable_income : ℚ
  tax : ℚ
  bracket_breakdown : List BEntry
  effective_rate : ℚ
deriving DecidableEq

/-- The four shapes of dictionary `calculate_state_tax` can return. -/
inductive StateResult where
  | noTax (label : String)
  | flat (r : FlatRes)
  | composite (r : CompRes)
  | bracket (r : BracketRes)
deriving DecidableEq

/-- The `"tax"` field common to every `calculate_state_tax` result
dictionary (the no-tax dictionary stores `"tax": 0`). -/
def StateResult.tax : StateResult → ℚ
  | .noTax _ => 0
  | .flat r => r.tax
  | .composite r => r.tax
  | .bracket r => r.tax

/-- The flat branch of `calculate_state_tax` (src/General-use-2025.py lines
284-301): `tax = total_income * rate + flat_fee` with the fee defaulting
to 0 when absent. -/
def flat_state_tax (total_income : ℚ) (nm : String) (rate : ℚ) (flat_fee : Option ℚ) :
    StateResult :=
  let state_tax := total_income * rate
  let fee := flat_fee.getD 0
  let total_state_tax := state_tax + fee
  let effective_rate := if total_income > 0 then total_state_tax / total_income * 100 else 0
  .flat ⟨nm, rate * 100, total_state_tax, fee, effective_rate⟩

/-- The composite branch of `calculate_state_tax` (src/General-use-2025.py
lines 304-326): `tax = total_income*state_rate + total_income*local_rate +
flat_fee`, with both portions reported. -/
def composite_state_tax (total_income : ℚ) (nm : String)
    (state_rate local_rate total_rate : ℚ) (flat_fee : Option ℚ) : StateResult :=
  let state_portion := total_income * state_rate
  let local_portion := total_income * local_rate
  let fee := flat_fee.getD 0
  let total_state_tax := state_portion + local_portion + fee
  let effective_rate := if total_income > 0 then total_state_tax / total_income * 100 else 0
  .composite ⟨nm, state_rate * 100, local_rate * 100, state_portion, local_portion,
    total_rate * 100, total_state_tax, fee, effective_rate⟩

/-- The bracket branch of `calculate_state_tax` (src/General-use-2025.py
lines 329-354). Python computes `filing_key = filing_status if
filing_status in state_data else "single"`; the dictionary's keys are
`"type"`, `"name"`, `"description"`, `"single"` and (when present)
`"joint"`, so a filing status naming one of the three metadata keys selects
a string instead of a profile and the subsequent `["standard_deduction"]`
raises a `TypeError`; `"joint"` selects the joint profile when the state
has one and otherwise falls back to `"single"`; every other status falls
back to `"single"`. The chosen profile's standard deduction is subtracted
from total income (floored at 0) and the bracket calculator is applied. -/
def bracket_state_tax (total_income : ℚ) (filing_status nm : String)
    (single_profile : Profile) (joint_profile : Option Profile) :
    Except TaxError StateResult :=
  if filing_status = "type" ∨ filing_status = "name" ∨ filing_status = "description" then
    .error .typeErr
  else
    let profile := if filing_status = "joint" then joint_profile.getD single_profile
      else single_profile
    let standard_deduction := profile.standard_deduction
    let taxable_income := max 0 (total_income - standard_deduction)
    let r := calculate_bracket_tax taxable_income profile.brackets
    let effective_rate := if total_income > 0 then r.1 / total_income * 100 else 0
    .ok (.bracket ⟨nm, standard_deduction, taxable_income, r.1, r.2, effective_rate⟩)

/-- Embedding of `calculate_state_tax(income1, income2, filing_status,
state_code)` from src/General-use-2025.py lines 251-358: an empty code or a
(lower-cased) code in the no-tax list yields tax 0; a lower-cased code
absent from the states table raises the unsupported-state `ValueError`;
otherwise dispatch on the entry's type. -/
def calculate_state_tax (income1 income2 : ℚ) (filing_status state_code : String) :
    Except TaxError StateResult :=
  let total_income := income1 + income2
  if state_code = "" ∨ lowerStr state_code ∈ no_tax_states then
    .ok (.noTax (if state_code = "" then "No State Tax" else upperStr state_code))
  else
    match statesTable.lookup (lowerStr state_code) with
    | none => .error .unsupportedJurisdiction
    | some .noTaxList => .error .typeErr
    | some (.flatState nm rate fee) => .ok (flat_state_tax total_income nm rate fee)
    | some (.compositeState nm sr lr tr fee) =>
        .ok (composite_state_tax total_income nm sr lr tr fee)
    | some (.bracketState nm sp jp) =>
        bracket_state_tax total_income filing_status nm sp jp

/-- Result of `calculate_total_tax` in src/General-use-2025.py. -/
structure TotalResult where
  federal : FederalResult
  state : StateResult
  total_tax : ℚ
  total_income : ℚ
  take_home : ℚ
  effective_rate : ℚ
deriving DecidableEq

/-- Embedding of `calculate_total_tax(income1, income2, filing_status,
state_code)` from src/General-use-2025.py lines 360-393: compute federal
and state taxes (exceptions propagate) and combine them. It performs no
validation of its own; in particular no income-sign check. -/
def calculate_total_tax (income1 income2 : ℚ) (filing_status state_code : String) :
    Except TaxError TotalResult := do
  let federal ← calculate_federal_tax income1 income2 filing_status
  let state ← calculate_state_tax income1 income2 filing_status state_code
  let total_tax := federal.total_tax + state.tax
  let total_income := federal.gross_income
  let take_home := total_income - total_tax
  let effective_rate := if total_income > 0 then total_tax / total_income * 100 else 0
  return ⟨federal, state, total_tax, total_income, take_home, effective_rate⟩

/-- Forgets the display-only state label of a `calculate_state_tax`
outcome, keeping the tax amount (and the error, if any): the view of the
result the case-insensitivity property is about. -/
def stateTaxView : Except TaxError StateResult → Except TaxError ℚ
  | .error e => .error e
  | .ok r => .ok r.tax

/-! ## Lemmas about the bracket calculator -/

theorem bracket_total_eq_sum (I : ℚ) : ∀ brs : List TaxBracket,
    (calculate_bracket_tax I brs).1 = ((calculate_bracket_tax I brs).2.map BEntry.tax).sum
  | [] => by simp [calculate_bracket_tax]
  | b :: rest => by
    by_cases h1 : I > b.lower
    · by_cases h2 : leUpper I b.upper = true
      · simp [calculate_bracket_tax, h1, h2]
      · have ih := bracket_total_eq_sum I rest
        simp [calculate_bracket_tax, h1, h2, ih]
    · have ih := bracket_total_eq_sum I rest
      simp [calculate_bracket_tax, h1, ih]

theorem chainWF_cons_none {p l r : ℚ} {rest : List TaxBracket}
    (h : chainWF p (⟨l, none, r⟩ :: rest) = true) :
    l = p ∧ 0 ≤ r ∧ r < 1 ∧ rest = [] := by
  simp only [chainWF, Bool.and_eq_true, decide_eq_true_eq, List.isEmpty_iff] at h
  tauto

theorem chainWF_cons_some {p l u r : ℚ} {rest : List TaxBracket}
    (h : chainWF p (⟨l, some u, r⟩ :: rest) = true) :
    l = p ∧ l < u ∧ 0 ≤ r ∧ r < 1 ∧ chainWF u rest = true := by
  simp only [chainWF, Bool.and_eq_true, decide_eq_true_eq] at h
  tauto

theorem chainWF_mem_le {p : ℚ} : ∀ {brs : List TaxBracket}, chainWF p brs = true →
    ∀ b ∈ brs, p ≤ b.lower
  | [], h => by simp [chainWF] at h
  | ⟨l, none, r⟩ :: rest, h => by
    obtain ⟨hl, -, -, hrest⟩ := chainWF_cons_none h
    subst hrest
    intro b hb
    simp only [List.mem_singleton] at hb
    subst hb; simp [hl.ge]
  | ⟨l, some u, r⟩ :: rest, h => by
    obtain ⟨hl, hlu, -, -, hrest⟩ := chainWF_cons_some h
    intro b hb
    rcases List.mem_cons.mp hb with hb | hb
    · subst hb; simp [hl.ge]
    · exact le_trans (hl ▸ hlu.le) (chainWF_mem_le hrest b hb)

theorem chainWF_rate_nonneg {p : ℚ} : ∀ {brs : List TaxBracket}, chainWF p brs = true →
    ∀ b ∈ brs, 0 ≤ b.rate
  | [], h => by simp [chainWF] at h
  | ⟨l, none, r⟩ :: rest, h => by
    obtain ⟨-, hr, -, hrest⟩ := chainWF_cons_none h
    subst hrest
    intro b hb
    simp only [List.mem_singleton] at hb
    subst hb; exact hr
  | ⟨l, some u, r⟩ :: rest, h => by
    obtain ⟨-, -, hr, -, hrest⟩ := chainWF_cons_some h
    intro b hb
    rcases List.mem_cons.mp hb with hb | hb
    · subst hb; exact hr
    · exact chainWF_rate_nonneg hrest b hb

theorem bracketTaxSum_nil (I : ℚ) : bracketTaxSum I [] = 0 := by
  simp [bracketTaxSum]

theorem bracketTaxSum_cons (I : ℚ) (b : TaxBracket) (rest : List TaxBracket) :
    bracketTaxSum I (b :: rest) =
      b.rate * max 0 (minUpper I b.upper - b.lower) + bracketTaxSum I rest := by
  simp [bracketTaxSum]

theorem bracketTaxSum_eq_zero {I p : ℚ} : ∀ {brs : List TaxBracket},
    chainWF p brs = true → I ≤ p → bracketTaxSum I brs = 0
  | [], _, _ => bracketTaxSum_nil I
  | ⟨l, none, r⟩ :: rest, h, hIp => by
    obtain ⟨hl, -, -, hrest⟩ := chainWF_cons_none h
    subst hrest hl
    have hmax : max 0 (minUpper I none - l) = 0 := max_eq_left (by simp [minUpper]; linarith)
    rw [bracketTaxSum_cons, bracketTaxSum_nil]
    simp [hmax]
  | ⟨l, some u, r⟩ :: rest, h, hIp => by
    obtain ⟨hl, hlu, -, -, hrest⟩ := chainWF_cons_some h
    subst hl
    have hmax : max 0 (minUpper I (some u) - l) = 0 := by
      apply max_eq_left
      have : min I u ≤ I := min_le_left _ _
      simp only [minUpper]
      linarith
    have h2 : bracketTaxSum I rest = 0 :=
      bracketTaxSum_eq_zero hrest (by linarith)
    rw [bracketTaxSum_cons, h2]
    simp [hmax]

theorem bracket_tax_eq_closed {I : ℚ} : ∀ {p : ℚ} {brs : List TaxBracket},
    chainWF p brs = true → (calculate_bracket_tax I brs).1 = bracketTaxSum I brs
  | p, [], h => by simp [chainWF] at h
  | p, ⟨l, none, r⟩ :: rest, h => by
    obtain ⟨hl, -, -, hrest⟩ := chainWF_cons_none h
    subst hrest
    rw [bracketTaxSum_cons, bracketTaxSum_nil]
    by_cases hI : I > l
    · have hmax : max 0 (minUpper I none - l) = minUpper I none - l := by
        apply max_eq_right; simp [minUpper]; linarith
      have hcalc : (calculate_bracket_tax I [⟨l, none, r⟩]).1 = (I - l) * r := by
        simp [calculate_bracket_tax, minUpper, leUpper, hI]
      rw [hcalc, hmax]
      simp only [minUpper]
      ring
    · have hmax : max 0 (minUpper I none - l) = 0 := by
        apply max_eq_left; push_neg at hI; simp [minUpper]; linarith
      simp [calculate_bracket_tax, hI, hmax]
  | p, ⟨l, some u, r⟩ :: rest, h => by
    obtain ⟨hl, hlu, -, -, hrest⟩ := chainWF_cons_some h
    rw [bracketTaxSum_cons]
    by_cases hI : I > l
    · by_cases hIu : I ≤ u
      · have hmin : minUpper I (some u) = I := by
          simp only [minUpper]; exact min_eq_left hIu
        have hmax : max 0 (I - l) = I - l := max_eq_right (by linarith)
        have hz : bracketTaxSum I rest = 0 := bracketTaxSum_eq_zero hrest hIu
        rw [hz]
        simp only [calculate_bracket_tax, hmin]
        simp [leUpper, hI, hIu, hmax, mul_comm]
      · push_neg at hIu
        have hmin : minUpper I (some u) = u := by
          simp only [minUpper]; exact min_eq_right hIu.le
        have hmax : max 0 (u - l) = u - l := max_eq_right (by linarith)
        have ih := bracket_tax_eq_closed (I := I) hrest
        simp only [calculate_bracket_tax, hmin]
        simp [leUpper, hI, not_le.mpr hIu, hmax, ih, mul_comm]
    · push_neg at hI
      have hmax : max 0 (minUpper I (some u) - l) = 0 := by
        apply max_eq_left
        have : min I u ≤ I := min_le_left _ _
        simp only [minUpper]; linarith
      have ih := bracket_tax_eq_closed (I := I) hrest
      rw [hmax]
      simp [calculate_bracket_tax, not_lt.mpr hI, ih]

theorem bracketTaxSum_mono {I J : ℚ} (hIJ : I ≤ J) : ∀ {brs : List TaxBracket},
    (∀ b ∈ brs, 0 ≤ b.rate) → bracketTaxSum I brs ≤ bracketTaxSum J brs
  | [], _ => by simp [bracketTaxSum_nil]
  | b :: rest, h => by
    have hterm : b.rate * max 0 (minUpper I b.upper - b.lower) ≤
        b.rate * max 0 (minUpper J b.upper - b.lower) := by
      apply mul_le_mul_of_nonneg_left _ (h b (List.mem_cons_self b rest))
      apply max_le_max le_rfl
      have hmin : minUpper I b.upper ≤ minUpper J b.upper := by
        cases hu : b.upper with
        | none => simpa [minUpper] using hIJ
        | some u =>
          simp only [minUpper]
          exact min_le_min hIJ le_rfl
      linarith
    have ih := bracketTaxSum_mono hIJ (fun b hb => h b (List.mem_cons_of_mem _ hb))
    rw [bracketTaxSum_cons, bracketTaxSum_cons]
    linarith

theorem chainWF_mem_lt {p : ℚ} : ∀ {brs : List TaxBracket}, chainWF p brs = true →
    ∀ b ∈ brs, ∀ u, b.upper = some u → b.lower < u
  | [], h => by simp [chainWF] at h
  | ⟨l', none, r'⟩ :: rest, h => by
    obtain ⟨-, -, -, hrest⟩ := chainWF_cons_none h
    subst hrest
    intro b hb u hu
    simp only [List.mem_singleton] at hb
    subst hb
    simp at hu
  | ⟨l', some u', r'⟩ :: rest, h => by
    obtain ⟨-, hlu, -, -, hrest⟩ := chainWF_cons_some h
    intro b hb u hu
    rcases List.mem_cons.mp hb with hb | hb
    · subst hb
      simp only [Option.some.injEq] at hu
      subst hu
      exact hlu
    · exact chainWF_mem_lt hrest b hb u hu

theorem boundary_aux {l u r : ℚ} : ∀ {p : ℚ} {T : List TaxBracket},
    chainWF p T = true → (⟨l, some u, r⟩ : TaxBracket) ∈ T →
    (calculate_bracket_tax u T).2.getLast? = some ⟨l, some u, r, u - l, (u - l) * r⟩ ∧
    ∀ e ∈ (calculate_bracket_tax u T).2, e.lower ≤ l
  | p, [], h, hmem => by simp at hmem
  | p, ⟨l', none, r'⟩ :: rest, h, hmem => by
    obtain ⟨-, -, -, hrest⟩ := chainWF_cons_none h
    subst hrest
    simp only [List.mem_singleton] at hmem
    exact absurd (congrArg TaxBracket.upper hmem) (by simp)
  | p, ⟨l', some u', r'⟩ :: rest, h, hmem => by
    obtain ⟨hl', hl'u', -, -, hrest⟩ := chainWF_cons_some h
    rcases List.mem_cons.mp hmem with hb | hb
    · obtain ⟨h1, h2, h3⟩ := TaxBracket.mk.injEq .. ▸ hb
      rw [Option.some.injEq] at h2
      subst h1 h2 h3
      have hul : u > l := hl'u'
      have hmin : minUpper u (some u) = u := by
        simp only [minUpper]; exact min_eq_left le_rfl
      have hcalc : calculate_bracket_tax u (⟨l, some u, r⟩ :: rest) =
          ((u - l) * r, [⟨l, some u, r, u - l, (u - l) * r⟩]) := by
        simp [calculate_bracket_tax, leUpper, hul, hmin]
      rw [hcalc]
      constructor
      · simp
      · intro e he
        simp only [List.mem_singleton] at he
        subst he
        exact le_rfl
    · have hu'l : u' ≤ l := chainWF_mem_le hrest _ hb
      have hlu : l < u := chainWF_mem_lt hrest _ hb u rfl
      have hl'l : l' < l := lt_of_lt_of_le hl'u' hu'l
      have hul' : u > l' := lt_trans hl'l hlu
      have hu'u : u' < u := lt_of_le_of_lt hu'l hlu
      have ih := boundary_aux (p := u') hrest hb
      have hmin : minUpper u (some u') = u' := by
        simp only [minUpper]; exact min_eq_right hu'u.le
      have hcalc : calculate_bracket_tax u (⟨l', some u', r'⟩ :: rest) =
          ((u' - l') * r' + (calculate_bracket_tax u rest).1,
            ⟨l', some u', r', u' - l', (u' - l') * r'⟩ :: (calculate_bracket_tax u rest).2) := by
        simp [calculate_bracket_tax, leUpper, hul', not_le.mpr hu'u, hmin]
      rw [hcalc]
      obtain ⟨ih1, ih2⟩ := ih
      constructor
      · rcases hbd : (calculate_bracket_tax u rest).2 with _ | ⟨e0, bd⟩
        · rw [hbd] at ih1; simp at ih1
        · rw [hbd] at ih1
          rw [List.getLast?_cons_cons]
          exact ih1
      · intro e he
        rcases List.mem_cons.mp he with he | he
        · subst he
          exact hl'l.le
        · exact ih2 e he

/-- C2: for every taxable income I ≥ 0 and every well-formed bracket table
(strictly increasing contiguous bounds partitioning `[0, ∞)`, rates in
`[0,1)`), the total returned by `calculate_bracket_tax` equals the sum of
the per-bracket `tax` entries of its breakdown, and the total is
monotonically non-decreasing in the taxable income. -/
theorem C2_total_eq_breakdown_sum_and_mono (T : List TaxBracket) (I J : ℚ)
    (hT : isWF T = true) (hI : 0 ≤ I) (hIJ : I ≤ J) :
    (calculate_bracket_tax I T).1 = ((calculate_bracket_tax I T).2.map BEntry.tax).sum ∧
    (calculate_bracket_tax I T).1 ≤ (calculate_bracket_tax J T).1 := by
  refine ⟨bracket_total_eq_sum I T, ?_⟩
  rw [bracket_tax_eq_closed hT, bracket_tax_eq_closed hT]
  exact bracketTaxSum_mono hIJ (chainWF_rate_nonneg hT)

theorem fed_single_brackets_wf : isWF fed_single_brackets = true := by
  norm_num [isWF, chainWF, fed_single_brackets]

/-- Witness for C2 at the federal single table with incomes 20000 and 60000. -/
theorem C2_witness :
    isWF fed_single_brackets = true ∧ (0:ℚ) ≤ 20000 ∧ (20000:ℚ) ≤ 60000 ∧
    ((calculate_bracket_tax 20000 fed_single_brackets).1 =
      ((calculate_bracket_tax 20000 fed_single_brackets).2.map BEntry.tax).sum ∧
     (calculate_bracket_tax 20000 fed_single_brackets).1 ≤
      (calculate_bracket_tax 60000 fed_single_brackets).1) :=
  ⟨fed_single_brackets_wf, by norm_num, by norm_num,
    C2_total_eq_breakdown_sum_and_mono fed_single_brackets 20000 60000
      fed_single_brackets_wf (by norm_num) (by norm_num)⟩

/-- C6: for every well-formed bracket table and every taxable income I > 0
exactly equal to the (finite) upper bound of some bracket, the income falls
entirely within that bracket: the breakdown's last entry is that bracket
(charged at that bracket's rate on the slice `upper - lower`), and no entry
for any later bracket is produced (every entry's lower bound is at most the
boundary bracket's lower bound, which lies strictly below the following
bracket's). -/
theorem C6_boundary_belongs_to_lower_bracket (T : List TaxBracket) (l u r I : ℚ)
    (hT : isWF T = true) (hmem : (⟨l, some u, r⟩ : TaxBracket) ∈ T)
    (hI : I = u) (hpos : 0 < I) :
    (calculate_bracket_tax I T).2.getLast? = some ⟨l, some u, r, u - l, (u - l) * r⟩ ∧
    ∀ e ∈ (calculate_bracket_tax I T).2, e.lower ≤ l := by
  subst hI
  exact boundary_aux hT hmem

/-- Witness for C6 at the federal single table, income exactly 48475
(the upper bound of the second bracket). -/
theorem C6_witness :
    isWF fed_single_brackets = true ∧
    (⟨11925, some 48475, 0.12⟩ : TaxBracket) ∈ fed_single_brackets ∧
    (0:ℚ) < 48475 ∧
    ((calculate_bracket_tax 48475 fed_single_brackets).2.getLast? =
      some ⟨11925, some 48475, 0.12, 48475 - 11925, (48475 - 11925) * 0.12⟩ ∧
     ∀ e ∈ (calculate_bracket_tax 48475 fed_single_brackets).2, e.lower ≤ 11925) :=
  ⟨fed_single_brackets_wf, by simp [fed_single_brackets], by norm_num,
    C6_boundary_belongs_to_lower_bracket fed_single_brackets 11925 48475 0.12 48475
      fed_single_brackets_wf (by simp [fed_single_brackets]) rfl (by norm_num)⟩

/-- C3: Social Security is capped per earner independently (never on the
combined total): for all incomes i1, i2 ≥ 0 and the program's payroll rules
(cap `SS_CAP`, rate `SS_RATE`), the Social Security tax of
`calculate_federal_tax` (either valid filing status) and of the joint
branch of `calculate_taxes` equals `min(i1,cap)*rate + min(i2,cap)*rate`;
two earners each below the cap pay `(i1+i2)*rate` even when the sum exceeds
the cap; Medicare applies uncapped to each earner's full income, summed. -/
theorem C3_ss_capped_per_earner (i1 i2 : ℚ) (h1 : 0 ≤ i1) (h2 : 0 ≤ i2) (fs : String)
    (hfs : fs = "single" ∨ fs = "joint") :
    (calculate_federal_tax i1 i2 fs).toOption.map FederalResult.ss_tax_total =
      some (min i1 SS_CAP * SS_RATE + min i2 SS_CAP * SS_RATE) ∧
    (calculate_federal_tax i1 i2 fs).toOption.map FederalResult.mc_tax_total =
      some (i1 * MC_RATE + i2 * MC_RATE) ∧
    (i1 ≤ SS_CAP → i2 ≤ SS_CAP →
      (calculate_federal_tax i1 i2 fs).toOption.map FederalResult.ss_tax_total =
        some ((i1 + i2) * SS_RATE)) ∧
    (calculate_taxes i1 i2 "joint").toOption.map FedResult.ss_total =
      some (min i1 SS_CAP * SS_RATE + min i2 SS_CAP * SS_RATE) ∧
    (calculate_taxes i1 i2 "joint").toOption.map FedResult.mc_total =
      some (i1 * MC_RATE + i2 * MC_RATE) := by
  have hGU : (calculate_federal_tax i1 i2 fs).toOption.map FederalResult.ss_tax_total =
      some (min i1 SS_CAP * SS_RATE + min i2 SS_CAP * SS_RATE) ∧
      (calculate_federal_tax i1 i2 fs).toOption.map FederalResult.mc_tax_total =
      some (i1 * MC_RATE + i2 * MC_RATE) := by
    rcases hfs with rfl | rfl <;>
      simp [calculate_federal_tax, Except.toOption]
  refine ⟨hGU.1, hGU.2, ?_, ?_, ?_⟩
  · intro hc1 hc2
    rw [hGU.1, min_eq_left hc1, min_eq_left hc2]
    ring_nf
  · by_cases hp : i2 > 0
    · simp [calculate_taxes, Except.toOption, hp]
    · have hz : i2 = 0 := le_antisymm (not_lt.mp hp) h2
      subst hz
      have hc : min (0:ℚ) SS_CAP = 0 := min_eq_left (by norm_num [SS_CAP])
      simp [calculate_taxes, Except.toOption, hc]
  · by_cases hp : i2 > 0
    · simp [calculate_taxes, Except.toOption, hp]
    · have hz : i2 = 0 := le_antisymm (not_lt.mp hp) h2
      subst hz
      simp [calculate_taxes, Except.toOption]

/-- Witness for C3: joint earners 100000 and 120000, each below the cap,
jointly above it; the theorem yields SS on the full combined income. -/
theorem C3_witness :
    (0:ℚ) ≤ 100000 ∧ (0:ℚ) ≤ 120000 ∧
    (calculate_federal_tax 100000 120000 "joint").toOption.map FederalResult.ss_tax_total =
      some ((100000 + 120000) * SS_RATE) :=
  ⟨by norm_num, by norm_num,
    (C3_ss_capped_per_earner 100000 120000 (by norm_num) (by norm_num) "joint"
      (Or.inr rfl)).2.2.1 (by norm_num [SS_CAP]) (by norm_num [SS_CAP])⟩

/-- Counterexample to C1 as stated: with filing status `"single"`,
`calculate_total_tax` (src/General-use-2025.py) does NOT ignore the second
income — at incomes (0, 10000) the total tax is 765 (payroll on the second
income), not the 0 obtained with the second income zeroed. -/
theorem C1_counterexample :
    (calculate_total_tax 0 10000 "single" "").toOption.map TotalResult.total_tax ≠
      (calculate_total_tax 0 0 "single" "").toOption.map TotalResult.total_tax := by
  have h1 : (calculate_total_tax 0 10000 "single" "").toOption.map TotalResult.total_tax
      = some 765 := by
    simp [calculate_total_tax, calculate_federal_tax, calculate_state_tax,
      calculate_bracket_tax, fed_single_brackets, minUpper, leUpper, SS_CAP, SS_RATE,
      MC_RATE, StateResult.tax, Except.toOption, bind, Except.bind, pure, Except.pure]
    norm_num
  have h2 : (calculate_total_tax 0 0 "single" "").toOption.map TotalResult.total_tax
      = some 0 := by
    simp [calculate_total_tax, calculate_federal_tax, calculate_state_tax,
      calculate_bracket_tax, fed_single_brackets, minUpper, leUpper, SS_CAP, SS_RATE,
      MC_RATE, StateResult.tax, Except.toOption, bind, Except.bind, pure, Except.pure]
    norm_num
  rw [h1, h2]
  norm_num

/-- C1 amended: the single-filer zeroing of the second income is real in
src/Federal-2025.py — `calculate_taxes` with status `"single"` is identical
to the call with the second income replaced by 0 — but in
src/General-use-2025.py the engine (`calculate_total_tax`, via
`calculate_federal_tax` and `calculate_state_tax`) always adds the second
income into the total regardless of filing status; there the zeroing for
single filers is performed by the interactive shell, not the engine. -/
theorem C1_amended_single_income_handling (i1 i2 : ℚ) :
    calculate_taxes i1 i2 "single" = calculate_taxes i1 0 "single" ∧
    (calculate_total_tax i1 i2 "single" "").toOption.map TotalResult.total_income =
      some (i1 + i2) := by
  constructor
  · simp [calculate_taxes]
  · simp [calculate_total_tax, calculate_federal_tax, calculate_state_tax,
      Except.toOption, bind, Except.bind, pure, Except.pure]

/-- Counterexample to C7 as stated: an earner with income -1000 (≤ 0)
contributes -62, not 0, to Social Security in `calculate_federal_tax`
(src/General-use-2025.py applies `min(income, cap) * rate` unguarded). -/
theorem C7_counterexample :
    (calculate_federal_tax 0 (-1000) "joint").toOption.map FederalResult.ss_tax2 =
      some (-62) ∧ ((-62 : ℚ) ≠ 0) := by
  constructor
  · simp [calculate_federal_tax, Except.toOption, SS_CAP, SS_RATE]
    norm_num
  · norm_num

theorem bracket_tax_zero_single : calculate_bracket_tax 0 fed_single_brackets = (0, []) := by
  norm_num [calculate_bracket_tax, fed_single_brackets, minUpper, leUpper]

/-- C7 amended: an earner whose income is exactly 0 contributes 0 to both
Social Security and Medicare (either earner slot, either engine); in
src/Federal-2025.py's `calculate_taxes` the second earner also contributes
0 whenever its income is ≤ 0 (explicit `if income2 > 0` guard, and for
"single" the second income is zeroed). But a strictly negative income in
the unguarded slots (both earners of src/General-use-2025.py, the first
earner of src/Federal-2025.py) yields a negative contribution, not 0. -/
theorem C7_amended_zero_income_contributes_zero (i1 i2 : ℚ) (h : i2 ≤ 0) :
    (calculate_federal_tax i1 0 "joint").toOption.map
        (fun r => (r.ss_tax2, r.mc_tax2)) = some (0, 0) ∧
    (calculate_federal_tax 0 i1 "joint").toOption.map
        (fun r => (r.ss_tax1, r.mc_tax1)) = some (0, 0) ∧
    (calculate_taxes i1 i2 "joint").toOption.map
        (fun r => (r.ss_tax2, r.mc_tax2)) = some (0, 0) ∧
    (calculate_taxes i1 i2 "single").toOption.map
        (fun r => (r.ss_tax2, r.mc_tax2)) = some (0, 0) := by
  have hmin0 : min (0:ℚ) SS_CAP = 0 := min_eq_left (by norm_num [SS_CAP])
  refine ⟨?_, ?_, ?_, ?_⟩
  · simp [calculate_federal_tax, Except.toOption, hmin0]
  · simp [calculate_federal_tax, Except.toOption, hmin0]
  · simp [calculate_taxes, Except.toOption, not_lt.mpr h]
  · simp [calculate_taxes, Except.toOption]

/-- Witness for C7's amended theorem at incomes 50000 and -5. -/
theorem C7_witness :
    (-5 : ℚ) ≤ 0 ∧
    (calculate_taxes 50000 (-5) "joint").toOption.map
        (fun r => (r.ss_tax2, r.mc_tax2)) = some (0, 0) :=
  ⟨by norm_num,
    (C7_amended_zero_income_contributes_zero 50000 (-5) (by norm_num)).2.2.1⟩

/-- Counterexample to C9 as stated: at income -1000 the engine does not
fail with any error — `calculate_total_tax` succeeds and computes the
negative tax -76.5 (src/General-use-2025.py lines 360-393 perform no
income-sign validation; it lives in the interactive shell). -/
theorem C9_counterexample :
    (calculate_total_tax (-1000) 0 "single" "").isOk = true ∧
    (calculate_total_tax (-1000) 0 "single" "").toOption.map TotalResult.total_tax =
      some (-76.5) := by
  constructor
  · simp [calculate_total_tax, calculate_federal_tax, calculate_state_tax,
      calculate_bracket_tax, fed_single_brackets, minUpper, leUpper, SS_CAP, SS_RATE,
      MC_RATE, StateResult.tax, Except.toOption, Except.isOk, Except.toBool,
      bind, Except.bind, pure, Except.pure]
  · simp [calculate_total_tax, calculate_federal_tax, calculate_state_tax,
      calculate_bracket_tax, fed_single_brackets, minUpper, leUpper, SS_CAP, SS_RATE,
      MC_RATE, StateResult.tax, Except.toOption, Except.isOk, Except.toBool,
      bind, Except.bind, pure, Except.pure]
    norm_num

/-- C9 amended: the engine performs no negative-income validation at all —
a negative income flows straight through the arithmetic and the total-tax
computation succeeds, returning the (negative) payroll tax on that income;
negative-income rejection happens only in the interactive shell before the
engine is called. -/
theorem C9_amended_no_negative_income_guard (i1 i2 : ℚ) (h1 : i1 < 0) (h2 : i2 = 0) :
    (calculate_total_tax i1 i2 "single" "").isOk = true ∧
    (calculate_total_tax i1 i2 "single" "").toOption.map TotalResult.total_tax =
      some (i1 * SS_RATE + i1 * MC_RATE) := by
  subst h2
  have hmin : min i1 SS_CAP = i1 := min_eq_left (by rw [SS_CAP]; linarith)
  have hmin0 : min (0:ℚ) SS_CAP = 0 := min_eq_left (by norm_num [SS_CAP])
  have hmax : (0:ℚ) ⊔ (i1 + 0 - 15000) = 0 := max_eq_left (by linarith)
  constructor
  · simp [calculate_total_tax, calculate_federal_tax, calculate_state_tax,
      Except.toOption, Except.isOk, Except.toBool, bind, Except.bind, pure, Except.pure]
  · simp [calculate_total_tax, calculate_federal_tax, calculate_state_tax,
      hmax, hmin, hmin0, bracket_tax_zero_single, StateResult.tax,
      Except.toOption, bind, Except.bind, pure, Except.pure]
    rw [show ((0:ℚ) ⊔ (i1 - 15000)) = 0 from max_eq_left (by linarith)]
    rw [bracket_tax_zero_single]

/-- Witness for C9's amended theorem at income -1000. -/
theorem C9_witness :
    (-1000 : ℚ) < 0 ∧
    (calculate_total_tax (-1000) 0 "single" "").toOption.map TotalResult.total_tax =
      some ((-1000) * SS_RATE + (-1000) * MC_RATE) :=
  ⟨by norm_num,
    (C9_amended_no_negative_income_guard (-1000) 0 (by norm_num) rfl).2⟩

/-! ## String lemmas for case-insensitive jurisdiction codes -/

theorem char_toNat_ofNat {n : Nat} (h : n.isValidChar) : (Char.ofNat n).toNat = n := by
  unfold Char.ofNat
  rw [dif_pos h]
  rfl

theorem char_toLower_idem (c : Char) : c.toLower.toLower = c.toLower := by
  simp only [Char.toLower]
  by_cases h : c.toNat ≥ 65 ∧ c.toNat ≤ 90
  · rw [if_pos h]
    have hv : (c.toNat + 32).isValidChar := Or.inl (by omega)
    rw [if_neg (by rw [char_toNat_ofNat hv]; omega)]
  · rw [if_neg h, if_neg h]

theorem lowerStr_idem (s : String) : lowerStr (lowerStr s) = lowerStr s := by
  unfold lowerStr
  simp only [List.map_map]
  rw [show (Char.toLower ∘ Char.toLower) = Char.toLower from funext char_toLower_idem]

theorem lowerStr_eq_empty_iff (s : String) : lowerStr s = "" ↔ s = "" := by
  cases s with
  | mk data =>
    unfold lowerStr
    constructor
    · intro h
      have hd : data.map Char.toLower = [] := congrArg String.data h
      rw [List.map_eq_nil_iff] at hd
      subst hd; rfl
    · intro h
      rw [show (String.mk data) = "" from h]
      rfl

/-- C4: `calculate_state_tax` fails with the unsupported-jurisdiction error
exactly when the code is non-empty, its lower-cased form is not in the
no-tax set, and it is not a key of the states table; when the code is empty
or in the no-tax set it succeeds with state tax 0; in particular the
unknown code "foo" fails with the unsupported-jurisdiction error. -/
theorem C4_unsupported_jurisdiction_iff (i1 i2 : ℚ) (fs code : String) :
    (calculate_state_tax i1 i2 fs code = .error .unsupportedJurisdiction ↔
      (code ≠ "" ∧ lowerStr code ∉ no_tax_states ∧
        (statesTable.lookup (lowerStr code)).isNone = true)) ∧
    ((code = "" ∨ lowerStr code ∈ no_tax_states) →
      ∃ r, calculate_state_tax i1 i2 fs code = .ok r ∧ r.tax = 0) ∧
    calculate_state_tax i1 i2 fs "foo" = .error .unsupportedJurisdiction := by
  refine ⟨?_, ?_, ?_⟩
  · unfold calculate_state_tax
    by_cases h0 : code = "" ∨ lowerStr code ∈ no_tax_states
    · rw [if_pos h0]
      constructor
      · intro h; simp at h
      · rintro ⟨hne, hnt, -⟩
        rcases h0 with h0 | h0
        · exact absurd h0 hne
        · exact absurd h0 hnt
    · rw [if_neg h0]
      push_neg at h0
      obtain ⟨hne, hnt⟩ := h0
      rcases hlk : statesTable.lookup (lowerStr code) with _ | e
      · simp [hne, hnt]
      · cases e with
        | noTaxList => simp
        | flatState nm rate fee => simp
        | compositeState nm sr lr tr fee => simp
        | bracketState nm sp jp =>
          simp only [Option.isNone_some, Bool.false_eq_true, and_false, iff_false]
          unfold bracket_state_tax
          split_ifs <;> simp
  · intro h0
    unfold calculate_state_tax
    rw [if_pos h0]
    exact ⟨_, rfl, rfl⟩
  · simp [calculate_state_tax, lowerStr, no_tax_states, statesTable, List.lookup]

/-- Witness for C4: the concrete unknown code "foo" fails with the
unsupported-jurisdiction error. -/
theorem C4_witness :
    calculate_state_tax 50000 0 "single" "foo" = .error .unsupportedJurisdiction :=
  (C4_unsupported_jurisdiction_iff 50000 0 "single" "foo").2.2

/-- C5: in the bracket branch of `calculate_state_tax`, for filing statuses
in {single, joint}, the profile used is the joint profile when the status
is "joint" and the jurisdiction has one, and otherwise (including the
silent fallback when the jurisdiction lacks a joint profile) the single
profile; its standard deduction is subtracted from total income floored at
0; and the state tax is the bracket calculator applied to that floored
taxable income with that profile's bracket table. -/
theorem C5_bracket_state_profile_fallback (total_income : ℚ) (fs nm : String)
    (sp : Profile) (jp : Option Profile) (hfs : fs = "single" ∨ fs = "joint") :
    bracket_state_tax total_income fs nm sp jp =
      (let profile := if fs = "joint" then jp.getD sp else sp
       let t := max 0 (total_income - profile.standard_deduction)
       let r := calculate_bracket_tax t profile.brackets
       .ok (.bracket ⟨nm, profile.standard_deduction, t, r.1, r.2,
         if total_income > 0 then r.1 / total_income * 100 else 0⟩)) ∧
    (jp = none → (if fs = "joint" then jp.getD sp else sp) = sp) := by
  constructor
  · rcases hfs with rfl | rfl <;> rfl
  · rintro rfl
    rcases hfs with rfl | rfl <;> simp

/-- Witness for C5: Minnesota's single profile with a joint request and no
joint profile available (the silent fallback path). -/
theorem C5_witness :
    bracket_state_tax 100000 "joint" "Minnesota" mn_single none =
      (let profile := if "joint" = "joint" then (none : Option Profile).getD mn_single
        else mn_single
       let t := max 0 (100000 - profile.standard_deduction)
       let r := calculate_bracket_tax t profile.brackets
       Except.ok (.bracket ⟨"Minnesota", profile.standard_deduction, t, r.1, r.2,
         if (100000:ℚ) > 0 then r.1 / 100000 * 100 else 0⟩)) :=
  (C5_bracket_state_profile_fallback 100000 "joint" "Minnesota" mn_single none
    (Or.inr rfl)).1

/-- C8: for every composite jurisdiction, the state tax equals
`totalIncome*stateRate + totalIncome*localRate + flatFee` (fee 0 when
absent) with both portions reported; in particular for
"pennsylvania-pittsburgh" at a single income of 80000 the state tax is
80000*0.0307 + 80000*0.03 + 52 = 4908. -/
theorem C8_composite_tax (total_income : ℚ) (nm : String)
    (sr lr tr : ℚ) (fee : Option ℚ) :
    (∃ r : CompRes, composite_state_tax total_income nm sr lr tr fee = .composite r ∧
      r.tax = total_income * sr + total_income * lr + fee.getD 0 ∧
      r.state_portion = total_income * sr ∧ r.local_portion = total_income * lr) ∧
    (calculate_state_tax 80000 0 "single" "pennsylvania-pittsburgh").toOption.map
      StateResult.tax = some 4908 := by
  constructor
  · exact ⟨_, rfl, rfl, rfl, rfl⟩
  · simp [calculate_state_tax, lowerStr, no_tax_states, statesTable, List.lookup,
      composite_state_tax, StateResult.tax, Except.toOption]
    norm_num

/-- C10: jurisdiction codes are matched case-insensitively — for every code
string, the state-tax amount (and the raised error, if any) equals the one
computed for the lower-cased code; only the echoed state label may differ. -/
theorem C10_case_insensitive_codes (i1 i2 : ℚ) (fs s : String) :
    stateTaxView (calculate_state_tax i1 i2 fs s) =
      stateTaxView (calculate_state_tax i1 i2 fs (lowerStr s)) := by
  unfold calculate_state_tax
  rw [lowerStr_idem]
  by_cases h0 : s = "" ∨ lowerStr s ∈ no_tax_states
  · have h0' : lowerStr s = "" ∨ lowerStr s ∈ no_tax_states := by
      rcases h0 with h | h
      · left; rw [h]; rfl
      · right; exact h
    rw [if_pos h0, if_pos h0']
    rfl
  · have h0' : ¬(lowerStr s = "" ∨ lowerStr s ∈ no_tax_states) := by
      push_neg at h0 ⊢
      exact ⟨fun h => h0.1 ((lowerStr_eq_empty_iff s).mp h), h0.2⟩
    rw [if_neg h0, if_neg h0']
